import Mathlib

/-!
Shallow embedding of the RAG retrieval core of `rag-mmm-platform`:
- `src/rag/retrieval/query_engine.py` (hybrid query fusion engine),
- `src/rag/embeddings/indexer.py` (semantic + lexical index builder),
- `src/rag/data_processing/ingest.py` (CSV document preparer),
- `src/rag/data_processing/build_index.py` (cost estimator).

Conventions of the embedding:
- Python dict metadata becomes an association list `List (String × MetaValue)`;
  `MetaValue` covers the value shapes actually stored (strings, ints, string
  lists).  `dict.get` is `List.lookup` with a default.
- Python exceptions become `Except` values; `ValueError` is
  `QueryError.invalidInput`, `FileNotFoundError` is `QueryError.notFound`.
- Filesystem and network effects are threaded explicitly: a `QueryEnv` record
  carries the observable state (BM25 artifact directory listing, existing
  Qdrant collections, the BM25 `num_docs` statistic) together with an oracle
  `fuse` standing for the external fused-retrieval step (embedding model +
  vector search + BM25 ranking + reciprocal-rank fusion, all performed by the
  LlamaIndex library on the already-validated inputs).  The storage operations
  a call performs are returned as an explicit ordered trace of `StorageOp`s.
- Python `str.strip` is `py_strip`, `str.lower` is `py_lower` (ASCII; all
  category/channel values in the repository are ASCII), both written
  structurally so the kernel evaluates them on concrete inputs.
- Floating point scores are modelled as rationals; no claim here depends on
  float rounding.
-/

namespace Rag

/-- A metadata value as stored by the repository: a string, a Python int,
or a list of strings (the CSV `columns` entry). -/
inductive MetaValue where
  | str (s : String)
  | int (n : Int)
  | strList (l : List String)
  deriving Repr, DecidableEq

/-- Metadata dictionaries, as association lists (first binding wins,
matching Python dict semantics for the lookups the code performs). -/
abbrev Metadata := List (String × MetaValue)

/-- Python `str(...)` on a metadata value, as used by `_matches_category`
(`str((node.metadata or {}).get("category", ""))`). -/
def pyStr : MetaValue → String
  | MetaValue.str s => s
  | MetaValue.int n => toString n
  | MetaValue.strList l =>
      "[" ++ String.intercalate ", " (l.map (fun s => "\x27" ++ s ++ "\x27")) ++ "]"

/-- A retrievable node (LlamaIndex `TextNode`): chunk text plus metadata. -/
structure Node where
  text : String
  metadata : Metadata
  deriving Repr, DecidableEq

/-- A node together with its (optional) retrieval score
(LlamaIndex `NodeWithScore`). -/
structure NodeWithScore where
  node : Node
  score : Option ℚ
  deriving Repr, DecidableEq

/-- The serialized result payload produced by `_serialize_node`:
`{"score": float, "text": str, "metadata": dict}`. -/
structure SearchResult where
  score : ℚ
  text : String
  metadata : Metadata
  deriving Repr, DecidableEq

/-- Errors raised by the query engine: `ValueError` (invalid input) and
`FileNotFoundError` (missing index), each carrying its message. -/
inductive QueryError where
  | invalidInput (msg : String)
  | notFound (msg : String)
  deriving Repr, DecidableEq

/-- Observable index/storage accesses performed by a query call, in order.
`loadBM25 k` records loading the persisted BM25 retriever and setting its
`similarity_top_k` to the clamped value `k`. -/
inductive StorageOp where
  | checkBM25Artifacts
  | checkCollection (name : String)
  | loadBM25 (clampedTopK : Int)
  | fusedRetrieve (collection : String) (query : String)
  deriving Repr, DecidableEq

/-- Python `str.strip()`: remove leading and trailing whitespace.  Written
structurally over the character list so that the kernel can evaluate it. -/
def py_strip (s : String) : String :=
  String.mk (((s.toList.dropWhile Char.isWhitespace).reverse.dropWhile
    Char.isWhitespace).reverse)

/-- Python `str.lower()` (ASCII; every category/channel value in the
repository is ASCII).  Written structurally so the kernel can evaluate it. -/
def py_lower (s : String) : String :=
  String.mk (s.toList.map Char.toLower)

/-- Python `str.endswith(suffix)`, structurally. -/
def py_endswith (s suffix : String) : Bool :=
  suffix.toList.isSuffixOf s.toList

/-- `_TEXT_COLLECTION = "text_documents"` (query_engine.py line 21). -/
def TEXT_COLLECTION : String := "text_documents"

/-- `_ASSET_COLLECTION = "campaign_assets"` (indexer.py line 21). -/
def ASSET_COLLECTION : String := "campaign_assets"

/-- The environment a query call runs against.
`bm25Dir` is the artifact directory listing (`none` = directory missing,
`some files` = directory exists with those entries); `collections` are the
Qdrant collections that exist; `bm25NumDocs` is the persisted retriever's
`bm25.scores.get("num_docs")` statistic (`none` when absent or unparsable);
`fuse` is the external fused-retrieval oracle, taking the collection name,
the stripped query, the requested `top_k` and the normalized pre-filter
value, and returning the fused candidate list. -/
structure QueryEnv where
  bm25Dir : Option (List String)
  bm25Path : String
  collections : List String
  bm25NumDocs : Option Int
  fuse : String → String → Int → Option String → List NodeWithScore

/-- `_build_category_filters` (query_engine.py lines 45-56): `None`/empty
category yields no filter; otherwise the value is stripped, and a
whitespace-only value also yields no filter.  The `MetadataFilters` object
is represented by the exact-match value it carries. -/
def build_category_filters (category : Option String) : Option String :=
  match category with
  | none => none
  | some c =>
      if c = "" then none
      else
        let normalized := py_strip c
        if normalized = "" then none else some normalized

/-- `_matches_category` (query_engine.py lines 79-86): no category (or the
empty string, which is falsy in Python) matches everything; otherwise the
node's `category` metadata, stringified and lowercased, is compared with the
stripped, lowercased request. -/
def matches_category (node_with_score : NodeWithScore) (category : Option String) : Bool :=
  match category with
  | none => true
  | some c =>
      if c = "" then true
      else
        let expected := py_lower (py_strip c)
        let actual :=
          py_lower (pyStr (((node_with_score.node.metadata).lookup "category").getD
            (MetaValue.str "")))
        actual == expected

/-- `_bm25_top_k` (query_engine.py lines 89-98): clamp the requested top-k to
the retriever's `num_docs` statistic.  `numDocsRaw = none` covers both a
missing `num_docs` entry and an unparsable one (the `except` branch), in
which case the code falls back to the requested value. -/
def bm25_top_k (numDocsRaw : Option Int) (requested_top_k : Int) : Int :=
  let num_docs := numDocsRaw.getD requested_top_k
  if num_docs ≤ 0 then 1 else min requested_top_k num_docs

/-- `_serialize_node` (query_engine.py lines 68-76): score defaults to `0.0`
when absent; text and metadata are copied from the node. -/
def serialize_node (node_with_score : NodeWithScore) : SearchResult :=
  { score := node_with_score.score.getD 0
    text := node_with_score.node.text
    metadata := node_with_score.node.metadata }

/-- The BM25 artifact presence test of query_engine.py line 116:
`not bm25_path.exists() or not any(bm25_path.iterdir())`, negated. -/
def bm25_artifacts_present (dir : Option (List String)) : Bool :=
  match dir with
  | none => false
  | some files => !files.isEmpty

/-- `qdrant_client.collection_exists name` against the environment. -/
def collection_exists (env : QueryEnv) (name : String) : Bool :=
  env.collections.contains name

/-- The message of the `FileNotFoundError` raised at query_engine.py
lines 117-119. -/
def bm25_missing_message (bm25_path : String) : String :=
  "BM25 index not found at " ++ bm25_path ++ ". Run build_index.py to create it."

/-- The message of the `FileNotFoundError` raised at query_engine.py
lines 131-133. -/
def text_collection_missing_message : String :=
  "Qdrant collection \x27text_documents\x27 not found. Run build_index.py --text first."

/-- `search_text` (query_engine.py lines 101-166).  Returns the result (or
error) of the call together with the ordered trace of index/storage accesses
it performed.  The steps mirror the source: strip-and-validate the query,
validate `top_k`, check the BM25 artifact directory, build the category
pre-filter, check the `text_documents` collection, clamp the BM25 top-k,
run fused retrieval, post-filter by category, truncate to `top_k`, and
serialize. -/
def search_text (env : QueryEnv) (query : String) (top_k : Int)
    (category : Option String) :
    Except QueryError (List SearchResult) × List StorageOp :=
  let query_text := py_strip query
  if query_text = "" then
    (Except.error (QueryError.invalidInput "query must be a non-empty string"), [])
  else if top_k ≤ 0 then
    (Except.error (QueryError.invalidInput "top_k must be > 0"), [])
  else if !bm25_artifacts_present env.bm25Dir then
    (Except.error (QueryError.notFound (bm25_missing_message env.bm25Path)),
      [StorageOp.checkBM25Artifacts])
  else
    let filters := build_category_filters category
    if !collection_exists env TEXT_COLLECTION then
      (Except.error (QueryError.notFound text_collection_missing_message),
        [StorageOp.checkBM25Artifacts, StorageOp.checkCollection TEXT_COLLECTION])
    else
      let lexical_top_k := bm25_top_k env.bm25NumDocs top_k
      let nodes := env.fuse TEXT_COLLECTION query_text top_k filters
      let filtered_nodes := nodes.filter (fun n => matches_category n category)
      (Except.ok ((filtered_nodes.take top_k.toNat).map serialize_node),
        [StorageOp.checkBM25Artifacts, StorageOp.checkCollection TEXT_COLLECTION,
          StorageOp.loadBM25 lexical_top_k,
          StorageOp.fusedRetrieve TEXT_COLLECTION query_text])

/-- `_matches_category` with the metadata key as a parameter; `matches_category`
is this at key `"category"`, and the asset path uses it at `"channel"`. -/
def matches_metadata (key : String) (node_with_score : NodeWithScore)
    (value : Option String) : Bool :=
  match value with
  | none => true
  | some c =>
      if c = "" then true
      else
        let expected := py_lower (py_strip c)
        let actual :=
          py_lower (pyStr (((node_with_score.node.metadata).lookup key).getD
            (MetaValue.str "")))
        actual == expected

/-- The message of the not-found error for a missing `campaign_assets`
collection on the asset query path. -/
def asset_collection_missing_message : String :=
  "Qdrant collection \x27campaign_assets\x27 not found. Run build_index.py --assets first."

/-- Modelled from the spec: `search_assets` is referenced by its callers
(`src/platform/api/agents/tools.py` imports it from
`src.rag.retrieval.query_engine`) and exercised by `tests/rag/test_query_engine.py`,
but its definition is absent from `src/rag/retrieval/query_engine.py` in this
tree.  Per the spec, "a parallel asset-query path reuses the identical fusion
contract against the asset corpus, filtering on channel instead of category,
using the same pre+post filter pattern": the call validates the query and
`top_k` exactly as `search_text` does, checks the `campaign_assets` collection
(not-found error naming it otherwise), retrieves with the channel value as the
native pre-filter, re-applies the channel constraint as a post-filter over the
fused list, truncates to `top_k`, and serializes.  (Consistent with the
repository's tests, no lexical-artifact check is made on this path: the asset
corpus has no persisted BM25 index.) -/
def search_assets (env : QueryEnv) (query : String) (top_k : Int)
    (channel : Option String) :
    Except QueryError (List SearchResult) × List StorageOp :=
  let query_text := py_strip query
  if query_text = "" then
    (Except.error (QueryError.invalidInput "query must be a non-empty string"), [])
  else if top_k ≤ 0 then
    (Except.error (QueryError.invalidInput "top_k must be > 0"), [])
  else
    let filters := build_category_filters channel
    if !collection_exists env ASSET_COLLECTION then
      (Except.error (QueryError.notFound asset_collection_missing_message),
        [StorageOp.checkCollection ASSET_COLLECTION])
    else
      let nodes := env.fuse ASSET_COLLECTION query_text top_k filters
      let filtered_nodes := nodes.filter (fun n => matches_metadata "channel" n channel)
      (Except.ok ((filtered_nodes.take top_k.toNat).map serialize_node),
        [StorageOp.checkCollection ASSET_COLLECTION,
          StorageOp.fusedRetrieve ASSET_COLLECTION query_text])

/-- The Validate → Retrieve (with native pre-filter) → Fuse → PostFilter →
Truncate contract of spec §4.3, written from the spec's words and
parameterized by the target collection, the metadata key filtered on, and
the not-found message.  Both query paths are compared against this contract:
`search_text` instantiates it at (`text_documents`, `category`) and
`search_assets` at (`campaign_assets`, `channel`). -/
def spec_fusion_contract (env : QueryEnv) (collection key notFoundMsg : String)
    (query : String) (top_k : Int) (filterValue : Option String) :
    Except QueryError (List SearchResult) :=
  let query_text := py_strip query
  if query_text = "" then
    Except.error (QueryError.invalidInput "query must be a non-empty string")
  else if top_k ≤ 0 then
    Except.error (QueryError.invalidInput "top_k must be > 0")
  else if !collection_exists env collection then
    Except.error (QueryError.notFound notFoundMsg)
  else
    let nodes := env.fuse collection (py_strip query) top_k (build_category_filters filterValue)
    let kept := nodes.filter (fun n => matches_metadata key n filterValue)
    Except.ok ((kept.take top_k.toNat).map serialize_node)

/-! ## Index builder (`src/rag/embeddings/indexer.py`) -/

/-- A LlamaIndex `Document`: chunk text plus metadata. -/
structure Doc where
  text : String
  metadata : Metadata
  deriving Repr, DecidableEq

/-- The observable state the `RAGIndexer` mutates: the Qdrant collections
(name ↦ stored items, one per ingested document since the builds pass
`transformations=[]`) and the persisted BM25 artifact directory (`none` =
no artifacts, `some corpus` = artifacts serializing that corpus; the
indexer's constructor creates the directory, so presence of artifacts means
a non-empty directory). -/
structure IndexerState where
  collections : List (String × List Doc)
  bm25Artifacts : Option (List Doc)
  deriving Repr, DecidableEq

/-- The persisted BM25 retriever, represented by the corpus its term
statistics were built over. -/
structure BM25 where
  corpus : List Doc
  deriving Repr, DecidableEq

/-- `ValueError` raised by the builders. -/
inductive BuildError where
  | invalidInput (msg : String)
  deriving Repr, DecidableEq

/-- `collection_exists` against the indexer state. -/
def state_collection_exists (st : IndexerState) (name : String) : Bool :=
  (st.collections.lookup name).isSome

/-- `_reset_collection` (indexer.py lines 71-74): delete the collection if it
exists (deleting removes every binding of that name). -/
def reset_collection (st : IndexerState) (name : String) : IndexerState :=
  if state_collection_exists st name then
    { st with collections := st.collections.filter (fun p => p.1 != name) }
  else st

/-- `VectorStoreIndex.from_documents` against a fresh collection with
`transformations=[]`: creates the named collection holding exactly one stored
item per input document. -/
def create_collection_with (st : IndexerState) (name : String) (docs : List Doc) :
    IndexerState :=
  { st with collections := st.collections ++ [(name, docs)] }

/-- `RAGIndexer._has_bm25_artifacts` (indexer.py lines 76-78). -/
def has_bm25_artifacts (st : IndexerState) : Bool :=
  st.bm25Artifacts.isSome

/-- `RAGIndexer.build_text_index` (indexer.py lines 87-112): reject an empty
document list, then drop-and-recreate `text_documents` with one item per
document.  The returned index is represented by its stored items. -/
def build_text_index (st : IndexerState) (docs : List Doc) :
    Except BuildError (List Doc) × IndexerState :=
  if docs.isEmpty then
    (Except.error (BuildError.invalidInput "docs must contain at least one Document"), st)
  else
    let st1 := reset_collection st TEXT_COLLECTION
    (Except.ok docs, create_collection_with st1 TEXT_COLLECTION docs)

/-- `dict.setdefault key value` on a metadata association list. -/
def metadata_setdefault (m : Metadata) (key : String) (value : MetaValue) : Metadata :=
  if (m.lookup key).isSome then m else m ++ [(key, value)]

/-- The metadata normalization of `build_asset_index` (indexer.py lines
124-127): every asset document is forced to carry an `image_path` key
(default empty string). -/
def force_image_path (docs : List Doc) : List Doc :=
  docs.map (fun d => { d with metadata := metadata_setdefault d.metadata "image_path" (MetaValue.str "") })

/-- `RAGIndexer.build_asset_index` (indexer.py lines 119-148): reject an empty
document list, force the `image_path` key, then drop-and-recreate
`campaign_assets` with one item per document. -/
def build_asset_index (st : IndexerState) (docs : List Doc) :
    Except BuildError (List Doc) × IndexerState :=
  if docs.isEmpty then
    (Except.error (BuildError.invalidInput "docs must contain at least one Document"), st)
  else
    let docs2 := force_image_path docs
    let st1 := reset_collection st ASSET_COLLECTION
    (Except.ok docs2, create_collection_with st1 ASSET_COLLECTION docs2)

/-- `RAGIndexer.build_bm25_index` (indexer.py lines 165-181): if persisted
artifacts exist, load and return them (the `docs` argument is not consulted
and nothing is written); otherwise reject an empty list, else build term
statistics over `docs` and persist them. -/
def build_bm25_index (st : IndexerState) (docs : List Doc) :
    Except BuildError BM25 × IndexerState :=
  match st.bm25Artifacts with
  | some artifacts => (Except.ok ⟨artifacts⟩, st)
  | none =>
      if docs.isEmpty then
        (Except.error (BuildError.invalidInput "docs must contain at least one Document"), st)
      else
        (Except.ok ⟨docs⟩, { st with bm25Artifacts := some docs })

/-! ## Cost estimation (`indexer.py` and `build_index.py`) -/

/-- `_estimate_tokens` (build_index.py lines 165-169, identical to
`RAGIndexer._estimate_tokens`, indexer.py lines 80-85): a local
4-characters-per-token heuristic, no network call. -/
def estimate_tokens (text : String) : Nat :=
  if text = "" then 0 else max 1 ((text.length + 3) / 4)

/-- `_EMBEDDING_COST_PER_1M_TOKENS_USD = 0.13`, as a rational. -/
def EMBEDDING_COST_PER_1M_TOKENS_USD : ℚ := 13 / 100

/-- The report of `_estimate_documents` (build_index.py lines 172-192).
`round(x, 8)` is the identity here since `tokens * 0.13 / 1_000_000` is an
integer multiple of `10^-8`. -/
structure EstimateReport where
  doc_count : Nat
  chunk_count : Nat
  estimated_tokens : Nat
  estimated_cost_usd : ℚ
  deriving Repr, DecidableEq

/-- The source-file identifier contributed by a document to the
`source_files` set of `_estimate_documents`: present only when the metadata
dict is truthy (non-empty) and holds a truthy `source_file` value.  The
stored values are strings; `str(...)` is applied as in the source. -/
def doc_source_file (d : Doc) : Option String :=
  if d.metadata.isEmpty then none
  else
    match d.metadata.lookup "source_file" with
    | none => none
    | some v => if pyStr v = "" then none else some (pyStr v)

/-- `_estimate_documents` (build_index.py lines 172-192): token/cost
estimate plus chunk count and distinct-source-file document count with
fallback to the chunk count. -/
def estimate_documents (docs : List Doc) : EstimateReport :=
  let estimated_tokens := (docs.map (fun d => estimate_tokens d.text)).sum
  let estimated_cost_usd :=
    ((estimated_tokens : ℚ) / 1000000) * EMBEDDING_COST_PER_1M_TOKENS_USD
  let source_files := (docs.filterMap doc_source_file).dedup
  let doc_count := if source_files.isEmpty then docs.length else source_files.length
  { doc_count := doc_count
    chunk_count := docs.length
    estimated_tokens := estimated_tokens
    estimated_cost_usd := estimated_cost_usd }

/-- `RAGIndexer.estimate` (indexer.py lines 155-163): chunk count, token
estimate and cost — no `doc_count` key on this variant. -/
def indexer_estimate (docs : List Doc) : Nat × Nat × ℚ :=
  let estimated_tokens := (docs.map (fun d => estimate_tokens d.text)).sum
  (docs.length, estimated_tokens,
    ((estimated_tokens : ℚ) / 1000000) * EMBEDDING_COST_PER_1M_TOKENS_USD)

/-! ## CSV ingestion (`src/rag/data_processing/ingest.py`)

The `csv` library's parse step is abstracted: `load_csv_documents` takes the
already-parsed row list (`none` when the file does not exist), together with
the file name (for categorization) and the project-relative path (the source
identifier).  The write-back step `csv.writer` is embedded (`csv_render`)
with the default dialect: comma delimiter, minimal quoting, `\r\n` row
terminator. -/

/-- `_CSV_CHUNK_SIZE = 20` (ingest.py line 20). -/
def CSV_CHUNK_SIZE : Nat := 20

/-- `pathlib.PurePath(name).stem` for a bare file name: the name up to its
last dot, provided that dot is neither the first nor the last character. -/
def path_stem (name : String) : String :=
  let cs := name.toList
  let dots := (List.range cs.length).filter (fun i => cs.getD i ' ' = '.')
  match dots.max? with
  | none => name
  | some i => if 0 < i ∧ i + 1 < cs.length then String.mk (cs.take i) else name

/-- `_categorize` (ingest.py lines 36-60): deterministic filename →
category mapping on the lowercased name's stem, with `.md` → contracts and
fallback `config`. -/
def categorize (filename : String) : String :=
  let name := py_lower filename
  let stem := path_stem name
  if stem ∈ ["meta_ads", "google_ads", "dv360", "tiktok_ads", "youtube_ads", "linkedin_ads"] then
    "digital_media"
  else if stem ∈ ["tv_performance", "ooh_performance", "print_performance", "radio_performance"] then
    "traditional_media"
  else if stem ∈ ["vehicle_sales", "website_analytics", "configurator_sessions", "leads",
      "test_drives", "sla_tracking"] then
    "sales_pipeline"
  else if stem ∈ ["competitor_spend", "economic_indicators", "events"] then
    "external"
  else if py_endswith name ".md" then "contracts"
  else "config"

/-- Minimal-quoting rule of `csv.writer`: quote a field containing the
delimiter, the quote character, or a line break. -/
def csv_field (field : String) : String :=
  if field.toList.any (fun c => c = ',' ∨ c = '"' ∨ c = '\r' ∨ c = '\n') then
    "\"" ++ String.mk (field.toList.flatMap (fun c => if c = '"' then ['"', '"'] else [c])) ++ "\""
  else field

/-- One `csv.writer.writerow` line with the default dialect. -/
def csv_row (row : List String) : String :=
  String.intercalate "," (row.map csv_field) ++ "\r\n"

/-- The text produced by writing `rows` through `csv.writer`. -/
def csv_render (rows : List (List String)) : String :=
  String.join (rows.map csv_row)

/-- The metadata attached to the CSV chunk covering data rows
`chunk_start .. chunk_end-1` (0-based) of a file with `total_rows` data rows
(ingest.py lines 111-122). -/
def csv_chunk_metadata (relPath filename : String) (header : List String)
    (chunk_start chunk_end total_rows : Nat) : Metadata :=
  [("source_file", MetaValue.str relPath),
    ("file_type", MetaValue.str "csv"),
    ("category", MetaValue.str (categorize filename)),
    ("columns", MetaValue.strList header),
    ("row_range", MetaValue.str (toString (chunk_start + 1) ++ "-" ++ toString chunk_end)),
    ("total_rows", MetaValue.int (total_rows : Int))]

/-- `load_csv_documents` (ingest.py lines 67-126).  `file = none` models a
missing file (skip); fewer than two parsed rows (empty or header-only file)
also skips; otherwise the data rows are grouped into windows of
`_CSV_CHUNK_SIZE`, each emitted as one document whose text is the header
plus the window re-rendered as CSV, tagged with source, category, columns,
row range and total row count. -/
def load_csv_documents (filename relPath : String)
    (file : Option (List (List String))) : List Doc :=
  match file with
  | none => []
  | some rows =>
      if rows.length < 2 then []
      else
        match rows with
        | [] => []
        | header :: data_rows =>
            let total_rows := data_rows.length
            let chunkCount := (total_rows + CSV_CHUNK_SIZE - 1) / CSV_CHUNK_SIZE
            (List.range chunkCount).map (fun i =>
              let chunk_start := i * CSV_CHUNK_SIZE
              let chunk_end := min (chunk_start + CSV_CHUNK_SIZE) total_rows
              let chunk := (data_rows.drop chunk_start).take CSV_CHUNK_SIZE
              { text := csv_render (header :: chunk)
                metadata := csv_chunk_metadata relPath filename header
                  chunk_start chunk_end total_rows })

/-! ## Concrete test fixtures (used to evaluate the theorems on inputs) -/

/-- A fused candidate whose stored category value is `"Meta"` (capitalized),
as the lexical retriever can return since it has no native metadata filter. -/
def meta_cap_node : NodeWithScore :=
  { node := { text := "Meta CPM benchmark", metadata := [("category", MetaValue.str "Meta")] }
    score := some (91 / 100) }

/-- Environment whose fused candidate list contains `meta_cap_node`. -/
def mixed_case_env : QueryEnv :=
  { bm25Dir := some ["retriever.json"]
    bm25Path := "data/index/bm25"
    collections := [TEXT_COLLECTION, ASSET_COLLECTION]
    bm25NumDocs := some 2
    fuse := fun _ _ _ _ => [meta_cap_node] }

/-- A fused candidate with category `digital_media`. -/
def digital_node : NodeWithScore :=
  { node := { text := "Meta CPM is tracked weekly."
              metadata := [("source_file", MetaValue.str "data/raw/meta_ads.csv"),
                ("category", MetaValue.str "digital_media")] }
    score := some (9 / 10) }

/-- Environment whose fused candidate list contains `digital_node`. -/
def digital_env : QueryEnv :=
  { bm25Dir := some ["retriever.json"]
    bm25Path := "data/index/bm25"
    collections := [TEXT_COLLECTION, ASSET_COLLECTION]
    bm25NumDocs := some 3
    fuse := fun _ _ _ _ => [digital_node] }

/-- Environment with both collections, BM25 artifacts present, and an empty
fused candidate list. -/
def quiet_env : QueryEnv :=
  { bm25Dir := some ["retriever.json"]
    bm25Path := "data/index/bm25"
    collections := [TEXT_COLLECTION, ASSET_COLLECTION]
    bm25NumDocs := some 2
    fuse := fun _ _ _ _ => [] }

/-- Environment whose BM25 artifact directory is missing. -/
def no_bm25_env : QueryEnv :=
  { bm25Dir := none
    bm25Path := "data/index/bm25"
    collections := [TEXT_COLLECTION]
    bm25NumDocs := none
    fuse := fun _ _ _ _ => [] }

/-- Environment with BM25 artifacts but no Qdrant collections. -/
def no_collection_env : QueryEnv :=
  { bm25Dir := some ["retriever.json"]
    bm25Path := "data/index/bm25"
    collections := []
    bm25NumDocs := some 2
    fuse := fun _ _ _ _ => [] }

/-- A sample chunk document. -/
def doc_a : Doc :=
  { text := "Meta CPM benchmark guidance for campaign planning."
    metadata := [("source_file", MetaValue.str "meta_ads.csv"),
      ("category", MetaValue.str "digital_media")] }

/-- A second sample chunk document, no source identifier. -/
def doc_b : Doc :=
  { text := "TV reach and frequency targets.", metadata := [] }

/-- An indexer state with no collections and no BM25 artifacts. -/
def st_empty : IndexerState := { collections := [], bm25Artifacts := none }

/-- An indexer state whose BM25 artifacts persist the corpus `[doc_a]`. -/
def st_with_bm25 : IndexerState := { collections := [], bm25Artifacts := some [doc_a] }

/-! ## Theorems -/

/-- `_matches_category` is the generic key-parameterized matcher at key
`"category"`. -/
theorem matches_category_eq (n : NodeWithScore) (c : Option String) :
    matches_category n c = matches_metadata "category" n c := rfl

/-- C3: for every call to `search_text`, a query that is empty after
stripping, or a non-positive `top_k`, yields the invalid-input error
(`ValueError`), and the storage-access trace is empty — the validation runs
before any index or storage access, whatever the state of the indexes. -/
theorem search_text_validates_first (env : QueryEnv) (query : String)
    (top_k : Int) (category : Option String)
    (h : py_strip query = "" ∨ top_k ≤ 0) :
    (∃ msg, (search_text env query top_k category).1 =
      Except.error (QueryError.invalidInput msg)) ∧
    (search_text env query top_k category).2 = [] := by
  rcases h with h | h
  · exact ⟨⟨"query must be a non-empty string", by simp [search_text, h]⟩,
      by simp [search_text, h]⟩
  · by_cases hq : py_strip query = ""
    · exact ⟨⟨"query must be a non-empty string", by simp [search_text, hq]⟩,
        by simp [search_text, hq]⟩
    · exact ⟨⟨"top_k must be > 0", by simp [search_text, hq, h]⟩,
        by simp [search_text, hq, h]⟩

/-- Witness for C3: evaluated on the empty query and on `top_k = 0`. -/
theorem search_text_validates_first_witness :
    ((∃ msg, (search_text quiet_env "" 5 none).1 =
      Except.error (QueryError.invalidInput msg)) ∧
      (search_text quiet_env "" 5 none).2 = []) ∧
    ((∃ msg, (search_text quiet_env "What is Meta CPM?" 0 none).1 =
      Except.error (QueryError.invalidInput msg)) ∧
      (search_text quiet_env "What is Meta CPM?" 0 none).2 = []) :=
  ⟨search_text_validates_first quiet_env "" 5 none (Or.inl rfl),
    search_text_validates_first quiet_env "What is Meta CPM?" 0 none (Or.inr (by decide))⟩

/-- C4: for every valid call (non-blank query, positive `top_k`): a missing
or empty BM25 artifact directory raises the not-found error naming the BM25
index and instructing the build, after exactly one artifact probe; otherwise
a missing `text_documents` collection raises the not-found error naming it,
after exactly one artifact probe and one collection probe.  The returned
traces contain no retrieval operation and no repeated probe: the conditions
are not auto-retried. -/
theorem search_text_not_found (env : QueryEnv) (query : String)
    (top_k : Int) (category : Option String)
    (hq : ¬py_strip query = "") (hk : 0 < top_k) :
    (bm25_artifacts_present env.bm25Dir = false →
      search_text env query top_k category =
        (Except.error (QueryError.notFound (bm25_missing_message env.bm25Path)),
          [StorageOp.checkBM25Artifacts])) ∧
    (bm25_artifacts_present env.bm25Dir = true →
      collection_exists env TEXT_COLLECTION = false →
      search_text env query top_k category =
        (Except.error (QueryError.notFound text_collection_missing_message),
          [StorageOp.checkBM25Artifacts, StorageOp.checkCollection TEXT_COLLECTION])) := by
  constructor
  · intro hbm
    simp [search_text, hq, not_le.mpr hk, hbm]
  · intro hbm hcol
    simp [search_text, hq, not_le.mpr hk, hbm, hcol]

/-- Witness for C4: evaluated on an environment without BM25 artifacts and
on one without the `text_documents` collection. -/
theorem search_text_not_found_witness :
    search_text no_bm25_env "What is Meta CPM?" 3 none =
      (Except.error (QueryError.notFound (bm25_missing_message no_bm25_env.bm25Path)),
        [StorageOp.checkBM25Artifacts]) ∧
    search_text no_collection_env "What is Meta CPM?" 3 none =
      (Except.error (QueryError.notFound text_collection_missing_message),
        [StorageOp.checkBM25Artifacts, StorageOp.checkCollection TEXT_COLLECTION]) :=
  ⟨(search_text_not_found no_bm25_env "What is Meta CPM?" 3 none
      (by decide) (by decide)).1 rfl,
    (search_text_not_found no_collection_env "What is Meta CPM?" 3 none
      (by decide) (by decide)).2 rfl rfl⟩

/-- C5 counterexample: the claim says the clamp never exceeds the
retriever's indexed document count, for every BM25 retriever.  A retriever
state whose `num_docs` statistic is `0` refutes it: `_bm25_top_k` returns
`1 > 0` there (the guard deliberately requests at least one result). -/
theorem bm25_top_k_zero_docs_counterexample :
    bm25_top_k (some 0) 5 = 1 ∧ ¬bm25_top_k (some 0) 5 ≤ 0 := by decide

/-- C5 (amended): for every requested `top_k > 0`, when the retriever
reports a positive indexed document count `d`, the clamp returns
`min top_k d`, which never exceeds `d` and is at least 1 (so over-requesting
relative to the corpus is reduced to the corpus size and never errors);
when the reported count is non-positive the clamp returns 1, and when the
statistic is absent it falls back to the requested `top_k`. -/
theorem bm25_top_k_clamps (d top_k : Int) (hk : 0 < top_k) (hd : 0 < d) :
    bm25_top_k (some d) top_k = min top_k d ∧
    bm25_top_k (some d) top_k ≤ d ∧
    1 ≤ bm25_top_k (some d) top_k ∧
    bm25_top_k (some 0) top_k = 1 ∧
    bm25_top_k none top_k = top_k := by
  refine ⟨?_, ?_, ?_, ?_, ?_⟩
  · simp [bm25_top_k, not_le.mpr hd]
  · simp [bm25_top_k, not_le.mpr hd, min_le_right]
  · simp only [bm25_top_k, Option.getD, not_le.mpr hd, if_false]
    exact le_min hk hd
  · simp [bm25_top_k]
  · simp [bm25_top_k, not_le.mpr hk]

/-- Witness for C5 (amended): evaluated at a corpus of 2 documents and a
requested `top_k` of 5. -/
theorem bm25_top_k_clamps_witness :
    bm25_top_k (some 2) 5 = min 5 2 ∧ bm25_top_k (some 2) 5 ≤ 2 ∧
    1 ≤ bm25_top_k (some 2) 5 ∧ bm25_top_k (some 0) 5 = 1 ∧
    bm25_top_k none 5 = 5 :=
  bm25_top_k_clamps 2 5 (by decide) (by decide)

/-- C10: calling `build_text_index` or `build_asset_index` with an empty
document list raises the invalid-input error and returns the state
unchanged: no collection is dropped or recreated on this path. -/
theorem build_empty_docs_is_atomic (st : IndexerState) :
    build_text_index st [] =
      (Except.error (BuildError.invalidInput "docs must contain at least one Document"), st) ∧
    build_asset_index st [] =
      (Except.error (BuildError.invalidInput "docs must contain at least one Document"), st) :=
  ⟨rfl, rfl⟩

/-- Deleting a collection removes every binding of that name. -/
theorem lookup_filter_ne (l : List (String × List Doc)) (name : String) :
    (l.filter (fun p => p.1 != name)).lookup name = none := by
  induction l with
  | nil => rfl
  | cons a t ih =>
      obtain ⟨k, v⟩ := a
      by_cases h : k = name
      · simpa [List.filter_cons, h] using ih
      · have hb : (name == k) = false := beq_eq_false_iff_ne.mpr (Ne.symm h)
        simp [List.filter_cons, bne_iff_ne, h, List.lookup, hb, ih]

/-- Appending a fresh binding to a map without the key makes it found. -/
theorem lookup_append_single (l : List (String × List Doc)) (name : String)
    (docs : List Doc) (h : l.lookup name = none) :
    (l ++ [(name, docs)]).lookup name = some docs := by
  induction l with
  | nil => simp [List.lookup]
  | cons a t ih =>
      obtain ⟨k, v⟩ := a
      rw [List.cons_append]
      by_cases hb : (name == k) = true
      · simp [List.lookup, hb] at h
      · have hb2 : (name == k) = false := by simpa using hb
        simp only [List.lookup, hb2] at h ⊢
        exact ih h

/-- After `_reset_collection`, the target collection no longer exists. -/
theorem lookup_reset (st : IndexerState) (name : String) :
    ((reset_collection st name).collections).lookup name = none := by
  unfold reset_collection
  by_cases h : state_collection_exists st name
  · simp only [h, if_true]
    exact lookup_filter_ne st.collections name
  · simp only [h, if_false]
    unfold state_collection_exists at h
    exact Option.not_isSome_iff_eq_none.mp (by simpa using h)

/-- After `build_text_index` on a non-empty list, the `text_documents`
collection holds exactly the input documents (one stored item per chunk). -/
theorem build_text_index_stores (st : IndexerState) (docs : List Doc)
    (h : docs ≠ []) :
    ((build_text_index st docs).2.collections).lookup TEXT_COLLECTION = some docs := by
  unfold build_text_index
  rw [if_neg (by simpa [List.isEmpty_iff] using h)]
  exact lookup_append_single _ _ _ (lookup_reset st TEXT_COLLECTION)

/-- C7: for every prior state and non-empty chunk list, each
`build_text_index` call drops any existing `text_documents` collection and
recreates it with exactly one stored item per chunk, so building twice with
the same list leaves the same stored items — and in particular the same item
count — as building once (no duplicate growth). -/
theorem build_text_index_rebuild_no_growth (st : IndexerState) (docs : List Doc)
    (h : docs ≠ []) :
    ((build_text_index st docs).2.collections).lookup TEXT_COLLECTION = some docs ∧
    ((build_text_index (build_text_index st docs).2 docs).2.collections).lookup
      TEXT_COLLECTION = some docs ∧
    (((build_text_index (build_text_index st docs).2 docs).2.collections).lookup
        TEXT_COLLECTION).map List.length =
      (((build_text_index st docs).2.collections).lookup TEXT_COLLECTION).map
        List.length := by
  refine ⟨build_text_index_stores st docs h, build_text_index_stores _ docs h, ?_⟩
  rw [build_text_index_stores st docs h, build_text_index_stores _ docs h]

/-- Witness for C7: evaluated on the empty state and a one-chunk corpus. -/
theorem build_text_index_rebuild_no_growth_witness :
    ((build_text_index st_empty [doc_a]).2.collections).lookup TEXT_COLLECTION =
      some [doc_a] ∧
    ((build_text_index (build_text_index st_empty [doc_a]).2 [doc_a]).2.collections).lookup
      TEXT_COLLECTION = some [doc_a] ∧
    (((build_text_index (build_text_index st_empty [doc_a]).2 [doc_a]).2.collections).lookup
        TEXT_COLLECTION).map List.length =
      (((build_text_index st_empty [doc_a]).2.collections).lookup TEXT_COLLECTION).map
        List.length :=
  build_text_index_rebuild_no_growth st_empty [doc_a] (by simp)

/-- C6: when persisted BM25 artifacts exist, `build_bm25_index` loads and
returns the persisted retriever with the state unchanged (nothing is
rewritten); the `docs` argument has no effect on the outcome, and in
particular the empty list raises no error on this path.  Consequently a
first successful build persists its corpus and a second build call returns
that persisted corpus with the artifacts untouched. -/
theorem build_bm25_index_load_not_rebuild (st : IndexerState)
    (docs docs2 arts : List Doc) (h : st.bm25Artifacts = some arts) :
    build_bm25_index st docs = (Except.ok ⟨arts⟩, st) ∧
    build_bm25_index st docs = build_bm25_index st docs2 ∧
    build_bm25_index st [] = (Except.ok ⟨arts⟩, st) ∧
    (∀ st0 d, st0.bm25Artifacts = none → d ≠ [] →
      (build_bm25_index st0 d).2.bm25Artifacts = some d ∧
      build_bm25_index (build_bm25_index st0 d).2 docs =
        (Except.ok ⟨d⟩, (build_bm25_index st0 d).2)) := by
  refine ⟨?_, ?_, ?_, ?_⟩
  · simp [build_bm25_index, h]
  · simp [build_bm25_index, h]
  · simp [build_bm25_index, h]
  · intro st0 d h0 hd
    have hne : d.isEmpty = false := by simpa [List.isEmpty_iff] using hd
    constructor
    · simp [build_bm25_index, h0, hne]
    · simp [build_bm25_index, h0, hne]

/-- Witness for C6: evaluated on a state persisting `[doc_a]` and on a
fresh build from the empty state. -/
theorem build_bm25_index_load_not_rebuild_witness :
    build_bm25_index st_with_bm25 [doc_b] = (Except.ok ⟨[doc_a]⟩, st_with_bm25) ∧
    build_bm25_index st_with_bm25 [doc_b] = build_bm25_index st_with_bm25 [] ∧
    build_bm25_index st_with_bm25 [] = (Except.ok ⟨[doc_a]⟩, st_with_bm25) ∧
    (∀ st0 d, st0.bm25Artifacts = none → d ≠ [] →
      (build_bm25_index st0 d).2.bm25Artifacts = some d ∧
      build_bm25_index (build_bm25_index st0 d).2 [doc_b] =
        (Except.ok ⟨d⟩, (build_bm25_index st0 d).2)) :=
  build_bm25_index_load_not_rebuild st_with_bm25 [doc_b] [] [doc_a] rfl

/-- C8: the cost estimator (a pure local computation — no network call in
the model, matching the 4-chars-per-token heuristic of the source) reports
the chunk count, and a `doc_count` equal to the number of distinct
source-file identifiers carried by the documents' metadata, falling back to
the chunk count when no document carries one.  `RAGIndexer.estimate` reports
the same chunk count. -/
theorem estimate_documents_counts (docs : List Doc) :
    (estimate_documents docs).chunk_count = docs.length ∧
    (docs.filterMap doc_source_file ≠ [] →
      (estimate_documents docs).doc_count =
        (docs.filterMap doc_source_file).toFinset.card) ∧
    ((∀ d ∈ docs, doc_source_file d = none) →
      (estimate_documents docs).doc_count = docs.length) ∧
    (indexer_estimate docs).1 = docs.length := by
  refine ⟨rfl, ?_, ?_, rfl⟩
  · intro hne
    have hdedup : (docs.filterMap doc_source_file).dedup ≠ [] := by
      simpa [List.dedup_eq_nil] using hne
    simp only [estimate_documents, List.card_toFinset]
    rw [if_neg (by simpa [List.isEmpty_iff] using hdedup)]
  · intro hall
    have hnil : docs.filterMap doc_source_file = [] := by
      simp only [List.filterMap_eq_nil_iff]
      exact hall
    simp [estimate_documents, hnil]

/-- Witness for C8: two chunks of which one carries a source identifier
(`doc_count` = 1 distinct source), and two chunks with no identifiers
(`doc_count` falls back to the chunk count 2). -/
theorem estimate_documents_counts_witness :
    (estimate_documents [doc_a, doc_b]).chunk_count = 2 ∧
    (estimate_documents [doc_a, doc_b]).doc_count =
      ([doc_a, doc_b].filterMap doc_source_file).toFinset.card ∧
    (estimate_documents [doc_b, doc_b]).doc_count = 2 := by
  refine ⟨(estimate_documents_counts [doc_a, doc_b]).1, ?_, ?_⟩
  · exact (estimate_documents_counts [doc_a, doc_b]).2.1 (by decide)
  · exact (estimate_documents_counts [doc_b, doc_b]).2.2.1 (by decide)

/-- C9: `load_csv_documents` returns the empty list for a missing file and
for a file with no data rows; for `N ≥ 1` data rows it returns exactly
`⌈N/20⌉` documents (the count `(N+19)/20`, bounded below and above so that it
is the least count covering all rows), the `i`-th document's text being the
header followed by the `i`-th window of at most 20 consecutive data rows
re-rendered as CSV, tagged with the source path, the filename-derived
category, the column list, the `"start-end"` row-range string and the total
row count. -/
theorem load_csv_documents_spec (filename relPath : String) :
    load_csv_documents filename relPath none = [] ∧
    (∀ rows, rows.length < 2 → load_csv_documents filename relPath (some rows) = []) ∧
    (∀ header data_rows, data_rows ≠ [] →
      (load_csv_documents filename relPath (some (header :: data_rows))).length =
        (data_rows.length + CSV_CHUNK_SIZE - 1) / CSV_CHUNK_SIZE ∧
      0 < (load_csv_documents filename relPath (some (header :: data_rows))).length ∧
      data_rows.length ≤
        (load_csv_documents filename relPath (some (header :: data_rows))).length *
          CSV_CHUNK_SIZE ∧
      ((load_csv_documents filename relPath (some (header :: data_rows))).length - 1) *
          CSV_CHUNK_SIZE < data_rows.length ∧
      (∀ i (hi : i < (load_csv_documents filename relPath (some (header :: data_rows))).length),
        ((load_csv_documents filename relPath (some (header :: data_rows))).get ⟨i, hi⟩ =
          { text := csv_render (header ::
              (data_rows.drop (i * CSV_CHUNK_SIZE)).take CSV_CHUNK_SIZE)
            metadata := csv_chunk_metadata relPath filename header (i * CSV_CHUNK_SIZE)
              (min (i * CSV_CHUNK_SIZE + CSV_CHUNK_SIZE) data_rows.length)
              data_rows.length }) ∧
        ((data_rows.drop (i * CSV_CHUNK_SIZE)).take CSV_CHUNK_SIZE).length ≤
          CSV_CHUNK_SIZE ∧
        (((load_csv_documents filename relPath
            (some (header :: data_rows))).get ⟨i, hi⟩).metadata.lookup "source_file" =
          some (MetaValue.str relPath)) ∧
        (((load_csv_documents filename relPath
            (some (header :: data_rows))).get ⟨i, hi⟩).metadata.lookup "category" =
          some (MetaValue.str (categorize filename))) ∧
        (((load_csv_documents filename relPath
            (some (header :: data_rows))).get ⟨i, hi⟩).metadata.lookup "columns" =
          some (MetaValue.strList header)) ∧
        (((load_csv_documents filename relPath
            (some (header :: data_rows))).get ⟨i, hi⟩).metadata.lookup "row_range" =
          some (MetaValue.str (toString (i * CSV_CHUNK_SIZE + 1) ++ "-" ++
            toString (min (i * CSV_CHUNK_SIZE + CSV_CHUNK_SIZE) data_rows.length)))) ∧
        (((load_csv_documents filename relPath
            (some (header :: data_rows))).get ⟨i, hi⟩).metadata.lookup "total_rows" =
          some (MetaValue.int (data_rows.length : Int))))) := by
  refine ⟨rfl, ?_, ?_⟩
  · intro rows hrows
    simp [load_csv_documents, hrows]
  · intro header data_rows hne
    have hN : 1 ≤ data_rows.length := List.length_pos.mpr hne
    have hnot2 : ¬((header :: data_rows).length < 2) := by
      simp only [List.length_cons]
      omega
    have hdocs : load_csv_documents filename relPath (some (header :: data_rows)) =
        (List.range ((data_rows.length + CSV_CHUNK_SIZE - 1) / CSV_CHUNK_SIZE)).map
          (fun i =>
            { text := csv_render (header ::
                (data_rows.drop (i * CSV_CHUNK_SIZE)).take CSV_CHUNK_SIZE)
              metadata := csv_chunk_metadata relPath filename header (i * CSV_CHUNK_SIZE)
                (min (i * CSV_CHUNK_SIZE + CSV_CHUNK_SIZE) data_rows.length)
                data_rows.length }) := by
      simp only [load_csv_documents, hnot2, if_false]
    have hlen : (load_csv_documents filename relPath (some (header :: data_rows))).length =
        (data_rows.length + CSV_CHUNK_SIZE - 1) / CSV_CHUNK_SIZE := by
      rw [hdocs, List.length_map, List.length_range]
    refine ⟨hlen, ?_, ?_, ?_, ?_⟩
    · rw [hlen]; unfold CSV_CHUNK_SIZE; omega
    · rw [hlen]; unfold CSV_CHUNK_SIZE; omega
    · rw [hlen]; unfold CSV_CHUNK_SIZE; omega
    · intro i hi
      have hget : (load_csv_documents filename relPath
          (some (header :: data_rows))).get ⟨i, hi⟩ =
          { text := csv_render (header ::
              (data_rows.drop (i * CSV_CHUNK_SIZE)).take CSV_CHUNK_SIZE)
            metadata := csv_chunk_metadata relPath filename header (i * CSV_CHUNK_SIZE)
              (min (i * CSV_CHUNK_SIZE + CSV_CHUNK_SIZE) data_rows.length)
              data_rows.length } := by
        have hi2 : i < ((data_rows.length + CSV_CHUNK_SIZE - 1) / CSV_CHUNK_SIZE) := by
          rw [← hlen]; exact hi
        simp only [List.get_eq_getElem]
        rw [List.getElem_of_eq hdocs hi]
        rw [List.getElem_map, List.getElem_range]
      refine ⟨hget, ?_, ?_, ?_, ?_, ?_, ?_⟩
      · simp [List.length_take]
      · rw [hget]; rfl
      · rw [hget]; rfl
      · rw [hget]; rfl
      · rw [hget]; rfl
      · rw [hget]; rfl

/-- Witness for C9: a missing file, a header-only file, and a 2-data-row
file (one chunk). -/
theorem load_csv_documents_spec_witness :
    load_csv_documents "meta_ads.csv" "data/raw/meta_ads.csv" none = [] ∧
    load_csv_documents "meta_ads.csv" "data/raw/meta_ads.csv" (some [["a", "b"]]) = [] ∧
    (load_csv_documents "meta_ads.csv" "data/raw/meta_ads.csv"
      (some [["a", "b"], ["1", "2"], ["3", "4"]])).length =
      (2 + CSV_CHUNK_SIZE - 1) / CSV_CHUNK_SIZE := by
  refine ⟨(load_csv_documents_spec "meta_ads.csv" "data/raw/meta_ads.csv").1, ?_, ?_⟩
  · exact (load_csv_documents_spec "meta_ads.csv" "data/raw/meta_ads.csv").2.1
      [["a", "b"]] (by decide)
  · exact ((load_csv_documents_spec "meta_ads.csv" "data/raw/meta_ads.csv").2.2
      ["a", "b"] [["1", "2"], ["3", "4"]] (by decide)).1

/-- C1 counterexample: with the category filter `"meta"`, a fused candidate
whose stored category value is `"Meta"` (which the lexical retriever can
supply, having no native metadata filter) passes the post-filter and is
returned, yet its metadata category value is not equal to the requested
category: the post-filter compares case-insensitively (and strips the
request), not by exact equality. -/
theorem search_text_category_exact_equality_fails :
    (search_text mixed_case_env "What is Meta CPM?" 5 (some "meta")).1 =
      Except.ok [{ score := 91 / 100
                   text := "Meta CPM benchmark"
                   metadata := [("category", MetaValue.str "Meta")] }] ∧
    MetaValue.str "Meta" ≠ MetaValue.str "meta" := by
  constructor
  · rfl
  · decide

/-- C1 (amended): for every call to `search_text` with a non-empty category
filter that returns a result list, every returned item's metadata category —
stringified and lowercased — equals the requested category stripped and
lowercased (out-of-category items from either retriever are dropped by this
case-insensitive post-filter before truncation). -/
theorem search_text_category_postfilter (env : QueryEnv) (query : String)
    (top_k : Int) (c : String) (hc : ¬c = "") (rs : List SearchResult)
    (h : (search_text env query top_k (some c)).1 = Except.ok rs) :
    ∀ r ∈ rs,
      py_lower (pyStr ((r.metadata.lookup "category").getD (MetaValue.str ""))) =
        py_lower (py_strip c) := by
  intro r hr
  simp only [search_text] at h
  split at h
  · simp at h
  · split at h
    · simp at h
    · split at h
      · simp at h
      · split at h
        · simp at h
        · simp only [Except.ok.injEq] at h
          subst h
          rcases List.mem_map.mp hr with ⟨n, hn, rfl⟩
          have hnf := List.mem_of_mem_take hn
          have hm : matches_category n (some c) = true := by
            have := List.mem_filter.mp hnf
            simpa using this.2
          simp only [matches_category, if_neg hc] at hm
          simpa [serialize_node] using eq_of_beq hm

/-- Witness for C1 (amended): evaluated on an environment whose fused
candidate carries category `digital_media`, filtered on `digital_media`. -/
theorem search_text_category_postfilter_witness :
    py_lower (pyStr (((serialize_node digital_node).metadata.lookup "category").getD
      (MetaValue.str ""))) = py_lower (py_strip "digital_media") :=
  search_text_category_postfilter digital_env "What is Meta CPM?" 5
    "digital_media" (by decide) [serialize_node digital_node] rfl
    (serialize_node digital_node) (List.mem_singleton.mpr rfl)

/-- C2: there is an asset-query operation `search_assets` with parameters
(query, top_k, channel) that applies the same
Validate → Retrieve (pre-filter) → Fuse → PostFilter → Truncate contract as
`search_text`, against the `campaign_assets` collection and the `channel`
metadata key instead of `category`: both paths are proved equal (in their
returned value) to the single generic contract `spec_fusion_contract`
instantiated at their collection and filter key — `search_text` whenever its
additional lexical-artifact precondition holds, `search_assets`
unconditionally. -/
theorem search_assets_matches_fusion_contract (env : QueryEnv) (query : String)
    (top_k : Int) (channel category : Option String)
    (hbm : bm25_artifacts_present env.bm25Dir = true) :
    (search_assets env query top_k channel).1 =
      spec_fusion_contract env ASSET_COLLECTION "channel"
        asset_collection_missing_message query top_k channel ∧
    (search_text env query top_k category).1 =
      spec_fusion_contract env TEXT_COLLECTION "category"
        text_collection_missing_message query top_k category := by
  constructor
  · by_cases h1 : py_strip query = "" <;> by_cases h2 : top_k ≤ 0 <;>
      by_cases h3 : collection_exists env ASSET_COLLECTION <;>
        simp [search_assets, spec_fusion_contract, h1, h2, h3]
  · by_cases h1 : py_strip query = "" <;> by_cases h2 : top_k ≤ 0 <;>
      by_cases h3 : collection_exists env TEXT_COLLECTION <;>
        simp [search_text, spec_fusion_contract, h1, h2, h3, hbm,
          matches_category_eq]

/-- Witness for C2: evaluated on an environment holding both collections
and BM25 artifacts. -/
theorem search_assets_matches_fusion_contract_witness :
    (search_assets quiet_env "What is Meta CPM?" 5 (some "meta")).1 =
      spec_fusion_contract quiet_env ASSET_COLLECTION "channel"
        asset_collection_missing_message "What is Meta CPM?" 5 (some "meta") ∧
    (search_text quiet_env "What is Meta CPM?" 5 (some "digital_media")).1 =
      spec_fusion_contract quiet_env TEXT_COLLECTION "category"
        text_collection_missing_message "What is Meta CPM?" 5 (some "digital_media") :=
  search_assets_matches_fusion_contract quiet_env "What is Meta CPM?" 5
    (some "meta") (some "digital_media") rfl

end Rag
